import Mathlib

/-
  Verification development for the states-of-matter molecular-dynamics engine.

  Shallow embedding over ℚ of:
  - AbstractVerletAlgorithm.updatePressure (src/unnamed/part_003)
  - WaterVerletAlgorithm.updateForcesAndMotion (src/js/common/model/engine/WaterVerletAlgorithm.js)
  - MonatomicAtomPositionUpdater.checkInContainer (src/js/common/model/engine/MonatomicAtomPositionUpdater.js)
  - DiatomicPhaseStateChanger.setPhaseSolid (src/js/common/model/engine/DiatomicPhaseStateChanger.js)
  - StatesOfMatterConstants (src/js/common/StatesOfMatterConstants.js)

  JavaScript numbers are modelled as exact rationals; decimal literals of the source
  are carried over verbatim as rational literals.  Code of the repository that is not
  present under src/ (calculateWallForce, updateMoleculeSafety, the water atom position
  updater, the gravity-boost constants of the old abstract Verlet class, the
  DISTANCE_BETWEEN_PARTICLES_IN_CRYSTAL constant of AbstractPhaseStateChanger and the
  model setters) is taken as opaque parameters of the embedding, so every theorem
  quantifies over all possible behaviours of the missing code.
-/

/-! ### Constants from StatesOfMatterConstants.js -/

/-- StatesOfMatterConstants.js line 19: `var SOLID_TEMPERATURE = 10.0;` (this fork
changed the value; the commented-out history shows 0.01, 0.2, 0.55, 0.6, 2.0, 6.0). -/
def SOLID_TEMPERATURE : ℚ := 10.0

/-- StatesOfMatterConstants.js line 81: `LIQUID_TEMPERATURE: 0.34`. -/
def LIQUID_TEMPERATURE : ℚ := 0.34

/-- StatesOfMatterConstants.js line 82: `GAS_TEMPERATURE: 1.0`. -/
def GAS_TEMPERATURE : ℚ := 1.0

/-! ### AbstractVerletAlgorithm (src/unnamed/part_003): pressure update -/

/-- part_003 line 19: `var PRESSURE_CALC_TIME_WINDOW = 12;` (seconds). -/
def PRESSURE_CALC_TIME_WINDOW : ℚ := 12

/-- part_003 line 23: `var EXPLOSION_PRESSURE = 1.05;`. -/
def EXPLOSION_PRESSURE : ℚ := 1.05

/-- The pressure-related state threaded through `updatePressure`: the integrator's
`pressureProperty` and the owning model's `isExplodedProperty`.  `setContainerExploded(true)`
on the model is modelled as writing the `isExploded` field. -/
structure PressureState where
  pressure : ℚ
  isExploded : Bool
deriving DecidableEq

/-- AbstractVerletAlgorithm.updatePressure (part_003 lines 244-263).
If the container has exploded the pressure is set to 0; otherwise the smoothed
pressure is `(dt/12) * (wallForce/(width+height)) + ((12-dt)/12) * previous`, and if the
new pressure exceeds EXPLOSION_PRESSURE while not exploded, the container explodes. -/
def updatePressure (normalizedContainerWidth normalizedContainerHeight : ℚ)
    (s : PressureState) (pressureZoneWallForce dt : ℚ) : PressureState :=
  if s.isExploded then
    { s with pressure := 0 }
  else
    let newPressure : ℚ :=
      (dt / PRESSURE_CALC_TIME_WINDOW) *
        (pressureZoneWallForce / (normalizedContainerWidth + normalizedContainerHeight)) +
      (PRESSURE_CALC_TIME_WINDOW - dt) / PRESSURE_CALC_TIME_WINDOW * s.pressure
    let s1 : PressureState := { s with pressure := newPressure }
    if s1.pressure > EXPLOSION_PRESSURE ∧ s1.isExploded = false then
      { s1 with isExploded := true }
    else
      s1

/-! ### MonatomicAtomPositionUpdater.checkInContainer -/

/-- MonatomicAtomPositionUpdater.checkInContainer (lines 55-68), on a position `(x, y)`:
when currently inside, leaves once `y >= topWall + 2`; when currently outside, re-enters
once `leftWall < x < rightWall` (strict) and `bottomWall <= y <= topWall`. -/
def checkInContainer (position : ℚ × ℚ) (leftWall rightWall topWall bottomWall : ℚ)
    (currentStatus : Bool) : Bool :=
  if currentStatus = true ∧ position.2 ≥ topWall + 2 then
    false
  else
    if currentStatus = false ∧ position.1 > leftWall ∧ position.1 < rightWall ∧
        position.2 ≤ topWall ∧ position.2 ≥ bottomWall then
      true
    else
      currentStatus

/-- The call made by MonatomicAtomPositionUpdater.updateAtomPositions (lines 36-42):
`checkInContainer(pos, LEFT, RIGHT - offset, TOP - offset, BOTTOM, current)`.
The wall constants `CONTAINER_LEFT_WALL` etc. are not present under src/, so they are
parameters here. -/
def monatomicInsideContainerUpdate (LEFT_WALL RIGHT_WALL TOP_WALL BOTTOM_WALL offset : ℚ)
    (position : ℚ × ℚ) (currentStatus : Bool) : Bool :=
  checkInContainer position LEFT_WALL (RIGHT_WALL - offset) (TOP_WALL - offset) BOTTOM_WALL
    currentStatus

/-! ### WaterVerletAlgorithm: hydrogen exclusion predicate -/

/-- WaterVerletAlgorithm.js line 256: the flat atom index `a` is skipped in the
coulomb-like accumulation when `(a + 1) % 6 === 0`. -/
def excludedAtom (a : ℕ) : Prop := (a + 1) % 6 = 0

instance (a : ℕ) : Decidable (excludedAtom a) := by
  unfold excludedAtom; infer_instance

/-! ### WaterVerletAlgorithm: data model -/

/-- The slice of MoleculeForceAndMotionDataSet used by WaterVerletAlgorithm.
Arrays are total functions on ℕ; only indices below `numberOfMolecules` (respectively
`3 * numberOfMolecules` for atoms) are meaningful. -/
structure WaterDataSet where
  numberOfMolecules : ℕ
  numberOfSafeMolecules : ℕ
  moleculeCenterOfMassPositions : ℕ → ℚ × ℚ
  atomPositions : ℕ → ℚ × ℚ
  moleculeVelocities : ℕ → ℚ × ℚ
  moleculeForces : ℕ → ℚ × ℚ
  nextMoleculeForces : ℕ → ℚ × ℚ
  moleculeRotationAngles : ℕ → ℚ
  moleculeRotationRates : ℕ → ℚ
  moleculeTorques : ℕ → ℚ
  nextMoleculeTorques : ℕ → ℚ
  moleculeMass : ℚ
  moleculeRotationalInertia : ℚ

/-- The slice of the MultipleParticleModel plus AbstractVerletAlgorithm state read and
written by WaterVerletAlgorithm.updateForcesAndMotion. -/
structure WaterModelState where
  moleculeDataSet : WaterDataSet
  temperatureSetPoint : ℚ
  gravitationalAcceleration : ℚ
  normalizedContainerHeight : ℚ
  normalizedContainerWidth : ℚ
  pressureState : PressureState
  temperature : ℚ
  potentialEnergy : ℚ

/-- Code of this repository that updateForcesAndMotion calls but that is not present
under src/: `calculateWallForce` and `updateMoleculeSafety` of the old abstract Verlet
class, its two gravity-boost constants, and WaterAtomPositionUpdater.updateAtomPositions.
They are opaque parameters; `calculateWallForce` maps a center-of-mass position to the
wall force it fills in, `updateMoleculeSafety` rearranges the data set, and
`updateAtomPositions` produces the new atom-position array from the data set. -/
structure WaterEnv where
  calculateWallForce : ℚ × ℚ → ℚ × ℚ
  updateMoleculeSafety : WaterDataSet → WaterDataSet
  updateAtomPositions : WaterDataSet → (ℕ → ℚ × ℚ)
  TEMPERATURE_BELOW_WHICH_GRAVITY_INCREASES : ℚ
  LOW_TEMPERATURE_GRAVITY_INCREASE_RATE : ℚ

/-- WaterVerletAlgorithm.js line 22: `var WATER_FULLY_MELTED_TEMPERATURE = 0.3;`. -/
def WATER_FULLY_MELTED_TEMPERATURE : ℚ := 0.3

/-- WaterVerletAlgorithm.js line 23: `var WATER_FULLY_MELTED_ELECTROSTATIC_FORCE = 1.0;`. -/
def WATER_FULLY_MELTED_ELECTROSTATIC_FORCE : ℚ := 1.0

/-- WaterVerletAlgorithm.js line 24: `var WATER_FULLY_FROZEN_TEMPERATURE = 0.22;`. -/
def WATER_FULLY_FROZEN_TEMPERATURE : ℚ := 0.22

/-- WaterVerletAlgorithm.js line 25: `var WATER_FULLY_FROZEN_ELECTROSTATIC_FORCE = 4.0;`. -/
def WATER_FULLY_FROZEN_ELECTROSTATIC_FORCE : ℚ := 4.0

/-- WaterVerletAlgorithm.js line 26: `var MAX_REPULSIVE_SCALING_FACTOR_FOR_WATER = 3.0;`. -/
def MAX_REPULSIVE_SCALING_FACTOR_FOR_WATER : ℚ := 3.0

/-- part_003 line 266: `PARTICLE_INTERACTION_DISTANCE_THRESH_SQRD: 6.25`. -/
def PARTICLE_INTERACTION_DISTANCE_THRESH_SQRD : ℚ := 6.25

/-- part_003 line 274: `MIN_DISTANCE_SQUARED: 0.90`. -/
def MIN_DISTANCE_SQUARED : ℚ := 0.90

/-- The charge scale q0 computed from the temperature set point
(WaterVerletAlgorithm.js lines 110-126). -/
def waterQ0 (temperatureSetPoint : ℚ) : ℚ :=
  if temperatureSetPoint < WATER_FULLY_FROZEN_TEMPERATURE then
    WATER_FULLY_FROZEN_ELECTROSTATIC_FORCE
  else if temperatureSetPoint > WATER_FULLY_MELTED_TEMPERATURE then
    WATER_FULLY_MELTED_ELECTROSTATIC_FORCE
  else
    WATER_FULLY_FROZEN_ELECTROSTATIC_FORCE -
      ((temperatureSetPoint - WATER_FULLY_FROZEN_TEMPERATURE) /
        (WATER_FULLY_MELTED_TEMPERATURE - WATER_FULLY_FROZEN_TEMPERATURE)) *
      (WATER_FULLY_FROZEN_ELECTROSTATIC_FORCE - WATER_FULLY_MELTED_ELECTROSTATIC_FORCE)

/-- `this.normalCharges = [-2*q0, q0, q0]` (WaterVerletAlgorithm.js lines 127-129). -/
def normalCharges (q0 : ℚ) : ℕ → ℚ
  | 0 => -2 * q0
  | 1 => q0
  | 2 => q0
  | _ => 0

/-- `this.alteredCharges = [-2*q0, 1.67*q0, 0.33*q0]` (lines 130-132). -/
def alteredCharges (q0 : ℚ) : ℕ → ℚ
  | 0 => -2 * q0
  | 1 => 1.67 * q0
  | 2 => 0.33 * q0
  | _ => 0

/-- Charge set selected for molecule `k`: normal for even index, altered for odd
(lines 216-222 and 226-232). -/
def chargesFor (q0 : ℚ) (k : ℕ) : ℕ → ℚ :=
  if k % 2 = 0 then normalCharges q0 else alteredCharges q0

/-- The repulsive Lennard-Jones scaling factor from the temperature set point
(lines 191-208). -/
def waterRepulsiveScalingFactor (temperatureSetPoint : ℚ) : ℚ :=
  if temperatureSetPoint > WATER_FULLY_MELTED_TEMPERATURE then
    1
  else if temperatureSetPoint < WATER_FULLY_FROZEN_TEMPERATURE then
    MAX_REPULSIVE_SCALING_FACTOR_FOR_WATER
  else
    MAX_REPULSIVE_SCALING_FACTOR_FOR_WATER -
      ((temperatureSetPoint - WATER_FULLY_FROZEN_TEMPERATURE) /
        (WATER_FULLY_MELTED_TEMPERATURE - WATER_FULLY_FROZEN_TEMPERATURE)) *
      (MAX_REPULSIVE_SCALING_FACTOR_FOR_WATER - 1)

/-! ### WaterVerletAlgorithm: pairwise interaction loop -/

/-- Accumulator of the pairwise interaction loop: the next-force and next-torque arrays
and the running potential energy. -/
structure InteractionAcc where
  nextMoleculeForces : ℕ → ℚ × ℚ
  nextMoleculeTorques : ℕ → ℚ
  potentialEnergy : ℚ

/-- `nextMoleculeForces[i].add(force)`. -/
def addForce (f : ℕ → ℚ × ℚ) (i : ℕ) (v : ℚ × ℚ) : ℕ → ℚ × ℚ :=
  Function.update f i (f i + v)

/-- `nextMoleculeForces[j].subtract(force)`. -/
def subForce (f : ℕ → ℚ × ℚ) (j : ℕ) (v : ℚ × ℚ) : ℕ → ℚ × ℚ :=
  Function.update f j (f j - v)

/-- One (ii, jj) iteration of the coulomb-like inner loop (lines 252-277): skip if
either flat atom index is an excluded hydrogen, otherwise add the electrostatic force
to molecule i, subtract it from molecule j, and update both torques. -/
def coulombTerm (q0 : ℚ) (pos atomPos : ℕ → ℚ × ℚ) (i j ii jj : ℕ)
    (acc : InteractionAcc) : InteractionAcc :=
  let atomIndex1 := 3 * i + ii
  let atomIndex2 := 3 * j + jj
  if excludedAtom atomIndex1 ∨ excludedAtom atomIndex2 then
    acc
  else
    let dx := (atomPos atomIndex1).1 - (atomPos atomIndex2).1
    let dy := (atomPos atomIndex1).2 - (atomPos atomIndex2).2
    let distanceSquared := max (dx * dx + dy * dy) MIN_DISTANCE_SQUARED
    let r2inv := 1 / distanceSquared
    let forceScalar := chargesFor q0 i ii * chargesFor q0 j jj * r2inv * r2inv
    let force : ℚ × ℚ := (dx * forceScalar, dy * forceScalar)
    let torqueOnI := ((atomPos atomIndex1).1 - (pos i).1) * force.2 -
                     ((atomPos atomIndex1).2 - (pos i).2) * force.1
    let torqueOnJ := ((atomPos atomIndex2).1 - (pos j).1) * force.2 -
                     ((atomPos atomIndex2).2 - (pos j).2) * force.1
    { nextMoleculeForces := subForce (addForce acc.nextMoleculeForces i force) j force
    , nextMoleculeTorques :=
        Function.update
          (Function.update acc.nextMoleculeTorques i (acc.nextMoleculeTorques i + torqueOnI))
          j ((Function.update acc.nextMoleculeTorques i
                (acc.nextMoleculeTorques i + torqueOnI)) j - torqueOnJ)
    , potentialEnergy := acc.potentialEnergy }

/-- One (i, j) iteration of the pairwise loop (lines 234-279): if the squared
center-of-mass distance is below the interaction threshold, accumulate the
Lennard-Jones force and potential energy, then run the 3×3 coulomb-like inner loop. -/
def processPair (q0 repulsiveForceScalingFactor : ℚ) (pos atomPos : ℕ → ℚ × ℚ)
    (i j : ℕ) (acc : InteractionAcc) : InteractionAcc :=
  let dx := (pos i).1 - (pos j).1
  let dy := (pos i).2 - (pos j).2
  let distanceSquared := dx * dx + dy * dy
  if distanceSquared < PARTICLE_INTERACTION_DISTANCE_THRESH_SQRD then
    let distanceSquared2 := max distanceSquared MIN_DISTANCE_SQUARED
    let r2inv := 1 / distanceSquared2
    let r6inv := r2inv * r2inv * r2inv
    let forceScalar := 48 * r2inv * r6inv * (r6inv * repulsiveForceScalingFactor - 0.5)
    let force : ℚ × ℚ := (dx * forceScalar, dy * forceScalar)
    let acc1 : InteractionAcc :=
      { nextMoleculeForces := subForce (addForce acc.nextMoleculeForces i force) j force
      , nextMoleculeTorques := acc.nextMoleculeTorques
      , potentialEnergy := acc.potentialEnergy + 4 * r6inv * (r6inv - 1) + 0.016316891136 }
    (List.range 3).foldl
      (fun a ii => (List.range 3).foldl (fun b jj => coulombTerm q0 pos atomPos i j ii jj b) a)
      acc1
  else
    acc

/-- The ordered list of index pairs (i, j), i < j < numberOfSafeMolecules, visited by
the nested loops at lines 212 and 223. -/
def pairList (numberOfSafeMolecules : ℕ) : List (ℕ × ℕ) :=
  (List.range numberOfSafeMolecules).bind
    (fun i => ((List.range numberOfSafeMolecules).filter (fun j => i < j)).map
      (fun j => (i, j)))

/-- The full pairwise interaction loop (lines 210-281). -/
def interactionLoop (q0 repulsiveForceScalingFactor : ℚ) (pos atomPos : ℕ → ℚ × ℚ)
    (numberOfSafeMolecules : ℕ) (acc : InteractionAcc) : InteractionAcc :=
  (pairList numberOfSafeMolecules).foldl
    (fun a p => processPair q0 repulsiveForceScalingFactor pos atomPos p.1 p.2 a) acc

/-! ### WaterVerletAlgorithm: velocity / rotation-rate / temperature update -/

/-- The final loop of updateForcesAndMotion (lines 283-304): velocity-Verlet second
half-step for velocities and rotation rates, kinetic-energy accumulation, force/torque
hand-off, and the temperature record.  The translational kinetic-energy line is kept
exactly as written in the source, `0.5 * mass * vx * vx + vy * vy`, where JavaScript
operator precedence leaves the `vy * vy` term outside the `0.5 * mass` product.
Returns the updated data set and the recorded temperature. -/
def updateVelocitiesAndTemperature (timeStep : ℚ) (numberOfMolecules : ℕ)
    (ds : WaterDataSet) : WaterDataSet × ℚ :=
  let massInverse := 1 / ds.moleculeMass
  let inertiaInverse := 1 / ds.moleculeRotationalInertia
  let timeStepHalf := timeStep / 2
  let newVelocities : ℕ → ℚ × ℚ := fun i =>
    if i < numberOfMolecules then
      ((ds.moleculeVelocities i).1 +
         timeStepHalf * ((ds.moleculeForces i).1 + (ds.nextMoleculeForces i).1) * massInverse,
       (ds.moleculeVelocities i).2 +
         timeStepHalf * ((ds.moleculeForces i).2 + (ds.nextMoleculeForces i).2) * massInverse)
    else ds.moleculeVelocities i
  let newRotationRates : ℕ → ℚ := fun i =>
    if i < numberOfMolecules then
      ds.moleculeRotationRates i +
        timeStepHalf * (ds.moleculeTorques i + ds.nextMoleculeTorques i) * inertiaInverse
    else ds.moleculeRotationRates i
  let centersOfMassKineticEnergy : ℚ :=
    ∑ i in Finset.range numberOfMolecules,
      (0.5 * ds.moleculeMass * (newVelocities i).1 * (newVelocities i).1 +
        (newVelocities i).2 * (newVelocities i).2)
  let rotationalKineticEnergy : ℚ :=
    ∑ i in Finset.range numberOfMolecules,
      0.5 * ds.moleculeRotationalInertia * newRotationRates i * newRotationRates i
  ( { ds with
        moleculeVelocities := newVelocities
      , moleculeRotationRates := newRotationRates
      , moleculeForces := fun i =>
          if i < numberOfMolecules then ds.nextMoleculeForces i else ds.moleculeForces i
      , moleculeTorques := fun i =>
          if i < numberOfMolecules then ds.nextMoleculeTorques i else ds.moleculeTorques i }
  , (centersOfMassKineticEnergy + rotationalKineticEnergy) / (numberOfMolecules : ℚ) / 1.5 )

/-! ### WaterVerletAlgorithm.updateForcesAndMotion -/

/-- WaterVerletAlgorithm.updateForcesAndMotion (lines 74-305).  Phases, in source order:
center-of-mass position and rotation-angle advance; atom-position resynchronisation
(opaque, the water position updater is not under src/); wall force, per-molecule
pressure-zone accumulation and gravity (with the low-temperature boost); the pressure
update (the water file passes a single argument to the two-parameter `updatePressure` of
part_003, we complete the call with the step's time step); the molecule-safety update
(opaque, only invoked when some molecule is unsafe, as in the source); the pairwise
Lennard-Jones / electrostatic loop; and the velocity / rotation-rate / temperature
update.  Loop accumulations into `pressureZoneWallForce` are represented as a sum over
the molecule indices, which equals the source's left-to-right accumulation because
rational addition is commutative and associative. -/
def updateForcesAndMotion (env : WaterEnv) (s : WaterModelState) (timeStep : ℚ) :
    WaterModelState :=
  let ds := s.moleculeDataSet
  let numberOfMolecules := ds.numberOfMolecules
  let massInverse := 1 / ds.moleculeMass
  let inertiaInverse := 1 / ds.moleculeRotationalInertia
  let timeStepSqrHalf := timeStep * timeStep * 0.5
  let q0 := waterQ0 s.temperatureSetPoint
  -- lines 135-143: update center-of-mass positions and rotation angles
  let ds1 : WaterDataSet :=
    { ds with
        moleculeCenterOfMassPositions := fun i =>
          if i < numberOfMolecules then
            ((ds.moleculeCenterOfMassPositions i).1 + timeStep * (ds.moleculeVelocities i).1 +
               timeStepSqrHalf * (ds.moleculeForces i).1 * massInverse,
             (ds.moleculeCenterOfMassPositions i).2 + timeStep * (ds.moleculeVelocities i).2 +
               timeStepSqrHalf * (ds.moleculeForces i).2 * massInverse)
          else ds.moleculeCenterOfMassPositions i
      , moleculeRotationAngles := fun i =>
          if i < numberOfMolecules then
            ds.moleculeRotationAngles i + timeStep * ds.moleculeRotationRates i +
              timeStepSqrHalf * ds.moleculeTorques i * inertiaInverse
          else ds.moleculeRotationAngles i }
  -- line 144: this.positionUpdater.updateAtomPositions( moleculeDataSet )
  let ds2 : WaterDataSet := { ds1 with atomPositions := env.updateAtomPositions ds1 }
  -- lines 147-178: wall force, pressure-zone accumulation, gravity
  let wallForce : ℕ → ℚ × ℚ := fun i =>
    env.calculateWallForce (ds2.moleculeCenterOfMassPositions i)
  let gravitationalAcceleration : ℚ :=
    if s.temperatureSetPoint < env.TEMPERATURE_BELOW_WHICH_GRAVITY_INCREASES then
      s.gravitationalAcceleration *
        ((env.TEMPERATURE_BELOW_WHICH_GRAVITY_INCREASES - s.temperatureSetPoint) *
           env.LOW_TEMPERATURE_GRAVITY_INCREASE_RATE + 1)
    else s.gravitationalAcceleration
  let ds3 : WaterDataSet :=
    { ds2 with
        nextMoleculeForces := fun i =>
          if i < numberOfMolecules then
            ((wallForce i).1, (wallForce i).2 - gravitationalAcceleration)
          else ds2.nextMoleculeForces i
      , nextMoleculeTorques := fun i =>
          if i < numberOfMolecules then 0 else ds2.nextMoleculeTorques i }
  let pressureZoneWallForce : ℚ :=
    ∑ i in Finset.range numberOfMolecules,
      (if (wallForce i).2 < 0 then -(wallForce i).2
       else if (ds2.moleculeCenterOfMassPositions i).2 > s.normalizedContainerHeight / 2 then
         |(wallForce i).1|
       else 0)
  -- line 181: this.updatePressure( pressureZoneWallForce )
  let newPressureState : PressureState :=
    updatePressure s.normalizedContainerWidth s.normalizedContainerHeight s.pressureState
      pressureZoneWallForce timeStep
  -- lines 185-187: update molecule safety when some molecules are unsafe
  let ds4 : WaterDataSet :=
    if ds3.numberOfSafeMolecules < numberOfMolecules then env.updateMoleculeSafety ds3 else ds3
  -- lines 210-281: pairwise interaction loop
  let repulsiveForceScalingFactor := waterRepulsiveScalingFactor s.temperatureSetPoint
  let acc : InteractionAcc :=
    interactionLoop q0 repulsiveForceScalingFactor ds4.moleculeCenterOfMassPositions
      ds4.atomPositions ds4.numberOfSafeMolecules
      { nextMoleculeForces := ds4.nextMoleculeForces
      , nextMoleculeTorques := ds4.nextMoleculeTorques
      , potentialEnergy := s.potentialEnergy }
  let ds5 : WaterDataSet :=
    { ds4 with
        nextMoleculeForces := acc.nextMoleculeForces
      , nextMoleculeTorques := acc.nextMoleculeTorques }
  -- lines 283-304: velocities, rotation rates, kinetic energy, temperature
  let final := updateVelocitiesAndTemperature timeStep numberOfMolecules ds5
  { s with
      moleculeDataSet := final.1
    , pressureState := newPressureState
    , temperature := final.2
    , potentialEnergy := acc.potentialEnergy }

/-! ### DiatomicPhaseStateChanger.setPhaseSolid -/

/-- DiatomicPhaseStateChanger.js line 23: `var MIN_INITIAL_DIAMETER_DISTANCE = 2.0;`. -/
def MIN_INITIAL_DIAMETER_DISTANCE : ℚ := 2.0

/-- The slice of the model state read and written by setPhaseSolid.  The
`temperatureSetPoint` field models the owning model's temperature set point;
`multipleParticleModel.setTemperature` is not under src/, and per the spec it sets
the model temperature to the given fixed phase constant, which we model as writing
this field. -/
structure SolidPhaseState where
  temperatureSetPoint : ℚ
  moleculeCenterOfMassPositions : ℕ → ℚ × ℚ
  moleculeVelocities : ℕ → ℚ × ℚ
  moleculeRotationAngles : ℕ → ℚ
  insideContainer : ℕ → Bool

/-- Modelled from the spec: `multipleParticleModel.setTemperature` is code of this
repository that is not under src/; per the spec ("Sets `temperatureSetPoint` to a fixed
constant for the phase") it writes the model's temperature set point. -/
def setTemperature (s : SolidPhaseState) (t : ℚ) : SolidPhaseState :=
  { s with temperatureSetPoint := t }

/-- JavaScript `Math.round( Math.sqrt( m ) )` for a natural number m.  With
s = ⌊√m⌋ the rounded value is s when √m < s + 1/2, i.e. when 4m < (2s+1)², and s+1
otherwise; √m + 1/2 is never exactly an integer because (k − 1/2)² = m has no
integer solution. -/
def jsRoundSqrt (m : ℕ) : ℕ :=
  let s := Nat.sqrt m
  if 4 * m < (2 * s + 1) ^ 2 then s else s + 1

/-- `moleculesPerLayer = Math.round( Math.sqrt( numberOfMolecules * 2 ) ) / 2`
(DiatomicPhaseStateChanger.js line 102) — a possibly half-integral rational. -/
def moleculesPerLayer (numberOfMolecules : ℕ) : ℚ :=
  (jsRoundSqrt (numberOfMolecules * 2) : ℚ) / 2

/-- The number of integers j with (j : ℚ) < moleculesPerLayer n, i.e. the number of
iterations of the inner placement loop in a layer that is not cut short by running out
of molecules: ⌈r/2⌉ = (r+1)/2 in natural division, for r = jsRoundSqrt (2n).
(j < r/2 over ℚ iff 2j + 1 ≤ r iff j < (r+1)/2 over ℕ.) -/
def rowCapacity (numberOfMolecules : ℕ) : ℕ :=
  (jsRoundSqrt (numberOfMolecules * 2) + 1) / 2

/-- A JavaScript array read `array[q]` with a rational index: defined (for an array
holding entries at integer indices 0..n-1) only when q is one of those integers.
A fractional or out-of-range index yields `undefined` in JavaScript and the subsequent
`setXY` / assignment on it throws, which we model as `none`. -/
def ratIndex (n : ℕ) (q : ℚ) : Option ℕ :=
  if q.den = 1 ∧ 0 ≤ q.num ∧ q.num < n then some q.num.toNat else none

/-- One iteration of the inner placement loop of setPhaseSolid (lines 117-137) at layer
i, slot j, with `placed` molecules already placed.  The JS loop guard is
`j < moleculesPerLayer && moleculesPlaced < numberOfMolecules`; iterating j over
`rowCapacity` naturals with the `placed < n` guard in the body is equivalent, because
the body has no effect once placed = n and the j bound equals rowCapacity.
`temperatureSqrt` stands for `Math.sqrt` of the temperature set point and `gauss k` for
the k-th `nextGaussian()` draw of the changer's seeded generator, neither of which is
rational-valued code under src/. -/
def placeMolecule (numberOfMolecules : ℕ) (startingPosX startingPosY d temperatureSqrt : ℚ)
    (gauss : ℕ → ℚ) (i j : ℕ) (st : SolidPhaseState × ℕ) :
    Option (SolidPhaseState × ℕ) :=
  if st.2 < numberOfMolecules then
    let xPos : ℚ := startingPosX + j * MIN_INITIAL_DIAMETER_DISTANCE +
      (if i % 2 ≠ 0 then (1 + d) / 2 else 0)
    let yPos : ℚ := startingPosY + i * MIN_INITIAL_DIAMETER_DISTANCE * 0.5
    let moleculeIndex : ℚ := i * moleculesPerLayer numberOfMolecules + j
    match ratIndex numberOfMolecules moleculeIndex with
    | none => none
    | some k =>
      some
        ( { st.1 with
              moleculeCenterOfMassPositions :=
                Function.update st.1.moleculeCenterOfMassPositions k (xPos, yPos)
            , moleculeRotationAngles := Function.update st.1.moleculeRotationAngles k 0
            , moleculeVelocities :=
                Function.update st.1.moleculeVelocities k
                  (temperatureSqrt * gauss (2 * st.2), temperatureSqrt * gauss (2 * st.2 + 1))
            , insideContainer := Function.update st.1.insideContainer i true }
        , st.2 + 1 )
  else
    some st

/-- One layer (outer-loop iteration) of setPhaseSolid. -/
def placeLayer (numberOfMolecules : ℕ) (startingPosX startingPosY d temperatureSqrt : ℚ)
    (gauss : ℕ → ℚ) (i : ℕ) (st : SolidPhaseState × ℕ) : Option (SolidPhaseState × ℕ) :=
  (List.range (rowCapacity numberOfMolecules)).foldl
    (fun oa j => oa.bind
      (placeMolecule numberOfMolecules startingPosX startingPosY d temperatureSqrt gauss i j))
    (some st)

/-- DiatomicPhaseStateChanger.setPhaseSolid (lines 87-139).  `d` is the
DISTANCE_BETWEEN_PARTICLES_IN_CRYSTAL constant of AbstractPhaseStateChanger, which is
not under src/ and is therefore a parameter.  Returns `none` when a placement hits a
fractional molecule index (a JavaScript TypeError on `undefined`). -/
def setPhaseSolid (numberOfMolecules : ℕ) (normalizedContainerWidth d temperatureSqrt : ℚ)
    (gauss : ℕ → ℚ) (s : SolidPhaseState) : Option SolidPhaseState :=
  let s0 : SolidPhaseState := (setTemperature s SOLID_TEMPERATURE)
  let crystalWidth : ℚ := moleculesPerLayer numberOfMolecules * (2.0 - 0.3)
  let startingPosX : ℚ := normalizedContainerWidth / 2 - crystalWidth / 2
  let startingPosY : ℚ := 1.2 + d
  ((List.range numberOfMolecules).foldl
    (fun oa i => oa.bind
      (placeLayer numberOfMolecules startingPosX startingPosY d temperatureSqrt gauss i))
    (some (s0, 0))).map Prod.fst

/-- The grid cell that the k-th placed molecule of the solid phase ends up in:
column k % c, row k / c, for row capacity c. -/
def solidGridPos (startingPosX startingPosY d : ℚ) (c k : ℕ) : ℚ × ℚ :=
  (startingPosX + ((k % c : ℕ) : ℚ) * MIN_INITIAL_DIAMETER_DISTANCE +
     (if (k / c) % 2 ≠ 0 then (1 + d) / 2 else 0),
   startingPosY + ((k / c : ℕ) : ℚ) * MIN_INITIAL_DIAMETER_DISTANCE * 0.5)

/-! ### Generic fold helpers -/

/-- Invariant preservation along a left fold. -/
theorem foldlInvariant {α β : Type} (P : α → Prop) (f : α → β → α) :
    ∀ (l : List β) (a : α), P a → (∀ b x, x ∈ l → P b → P (f b x)) → P (l.foldl f a) := by
  intro l
  induction l with
  | nil => intro a h _; exact h
  | cons x xs ih =>
    intro a h hstep
    exact ih (f a x) (hstep a x (List.mem_cons_self x xs) h)
      (fun b y hy => hstep b y (List.mem_cons_of_mem x hy))

/-- A fold of Option-bind steps started from (or having reached) `none` stays `none`. -/
theorem bindFoldNone {α β : Type} (l : List β) (h : β → α → Option α) :
    l.foldl (fun oa x => oa.bind (h x)) none = none := by
  induction l with
  | nil => rfl
  | cons y ys ih => simpa using ih

/-! ### Sums of pointwise force updates -/

/-- Adding `v` into slot i changes the total of the first n entries by `+ v`. -/
theorem sumRange_addForce (f : ℕ → ℚ × ℚ) (n i : ℕ) (v : ℚ × ℚ) (h : i < n) :
    ∑ k in Finset.range n, addForce f i v k = (∑ k in Finset.range n, f k) + v := by
  unfold addForce
  rw [Finset.sum_update_of_mem (Finset.mem_range.mpr h),
    Finset.sum_sdiff_eq_sub (Finset.singleton_subset_iff.mpr (Finset.mem_range.mpr h)),
    Finset.sum_singleton]
  abel

/-- Subtracting `v` from slot j changes the total of the first n entries by `- v`. -/
theorem sumRange_subForce (f : ℕ → ℚ × ℚ) (n j : ℕ) (v : ℚ × ℚ) (h : j < n) :
    ∑ k in Finset.range n, subForce f j v k = (∑ k in Finset.range n, f k) - v := by
  unfold subForce
  rw [Finset.sum_update_of_mem (Finset.mem_range.mpr h),
    Finset.sum_sdiff_eq_sub (Finset.singleton_subset_iff.mpr (Finset.mem_range.mpr h)),
    Finset.sum_singleton]
  abel

/-- Each coulomb-like term leaves the total next-force over the first n molecules
unchanged: the force added to molecule i is exactly the force subtracted from j. -/
theorem coulombTerm_sum (q0 : ℚ) (pos atomPos : ℕ → ℚ × ℚ) (i j ii jj : ℕ)
    (acc : InteractionAcc) (n : ℕ) (hi : i < n) (hj : j < n) :
    ∑ k in Finset.range n, (coulombTerm q0 pos atomPos i j ii jj acc).nextMoleculeForces k
      = ∑ k in Finset.range n, acc.nextMoleculeForces k := by
  unfold coulombTerm
  dsimp only
  split_ifs with h
  · rfl
  · dsimp only
    rw [sumRange_subForce _ n j _ hj, sumRange_addForce _ n i _ hi]
    abel

/-- Each pairwise iteration (Lennard-Jones plus the 3×3 electrostatic inner loop)
leaves the total next-force over the first n molecules unchanged. -/
theorem processPair_sum (q0 rep : ℚ) (pos atomPos : ℕ → ℚ × ℚ) (i j : ℕ)
    (acc : InteractionAcc) (n : ℕ) (hi : i < n) (hj : j < n) :
    ∑ k in Finset.range n, (processPair q0 rep pos atomPos i j acc).nextMoleculeForces k
      = ∑ k in Finset.range n, acc.nextMoleculeForces k := by
  unfold processPair
  dsimp only
  split_ifs with h
  · refine foldlInvariant
      (fun a : InteractionAcc => ∑ k in Finset.range n, a.nextMoleculeForces k
        = ∑ k in Finset.range n, acc.nextMoleculeForces k) _ _ _ ?_ ?_
    · dsimp only
      rw [sumRange_subForce _ n j _ hj, sumRange_addForce _ n i _ hi]
      abel
    · intro b ii _ hb
      refine foldlInvariant
        (fun a : InteractionAcc => ∑ k in Finset.range n, a.nextMoleculeForces k
          = ∑ k in Finset.range n, acc.nextMoleculeForces k) _ _ _ hb ?_
      intro b2 jj _ hb2
      rw [coulombTerm_sum q0 pos atomPos i j ii jj b2 n hi hj]
      exact hb2
  · rfl

/-- Every pair in `pairList m` has first component strictly below the second, which is
strictly below m. -/
theorem pairList_mem (m : ℕ) (p : ℕ × ℕ) (h : p ∈ pairList m) : p.1 < p.2 ∧ p.2 < m := by
  unfold pairList at h
  simp only [List.mem_bind, List.mem_map, List.mem_filter, List.mem_range,
    decide_eq_true_eq] at h
  obtain ⟨i, hi, j, ⟨hj, hij⟩, rfl⟩ := h
  exact ⟨hij, hj⟩

/-- C9: in the water integrator's pairwise interaction loop, every Lennard-Jones and
electrostatic contribution added to nextMoleculeForces[i] is the exact negation of the
contribution subtracted from nextMoleculeForces[j], so the loop leaves the total of the
next-force array over all n molecules unchanged — the pairwise inter-molecular forces
change the total linear momentum by exactly zero. -/
theorem interactionLoop_momentum (q0 rep : ℚ) (pos atomPos : ℕ → ℚ × ℚ)
    (numberOfSafeMolecules n : ℕ) (acc : InteractionAcc)
    (h : numberOfSafeMolecules ≤ n) :
    ∑ i in Finset.range n,
        (interactionLoop q0 rep pos atomPos numberOfSafeMolecules acc).nextMoleculeForces i
      = ∑ i in Finset.range n, acc.nextMoleculeForces i := by
  unfold interactionLoop
  refine foldlInvariant
    (fun a : InteractionAcc => ∑ i in Finset.range n, a.nextMoleculeForces i
      = ∑ i in Finset.range n, acc.nextMoleculeForces i) _ _ _ rfl ?_
  intro b p hp hb
  obtain ⟨h1, h2⟩ := pairList_mem numberOfSafeMolecules p hp
  rw [processPair_sum q0 rep pos atomPos p.1 p.2 b n
    (lt_of_lt_of_le (lt_trans h1 h2) h) (lt_of_lt_of_le h2 h)]
  exact hb

/-- Two safe molecules one unit apart (within the interaction threshold). -/
def closePositions : ℕ → ℚ × ℚ := fun i => ((i : ℚ), 0)

/-- All-zero interaction accumulator. -/
def zeroAcc : InteractionAcc :=
  { nextMoleculeForces := fun _ => (0, 0)
  , nextMoleculeTorques := fun _ => 0
  , potentialEnergy := 0 }

/-- Witness for C9 at a concrete two-molecule configuration. -/
theorem interactionLoop_momentum_witness :
    ∑ i in Finset.range 2,
        (interactionLoop 1 1 closePositions closePositions 2 zeroAcc).nextMoleculeForces i
      = ∑ i in Finset.range 2, zeroAcc.nextMoleculeForces i :=
  interactionLoop_momentum 1 1 closePositions closePositions 2 2 zeroAcc (le_refl 2)

/-! ### Concrete instances used by several witnesses -/

/-- A concrete environment for the opaque parts: zero wall force, identity safety
update, atom positions left as they are, no gravity boost. -/
def constEnv : WaterEnv :=
  { calculateWallForce := fun _ => (0, 0)
  , updateMoleculeSafety := id
  , updateAtomPositions := fun ds => ds.atomPositions
  , TEMPERATURE_BELOW_WHICH_GRAVITY_INCREASES := 0
  , LOW_TEMPERATURE_GRAVITY_INCREASE_RATE := 0 }

/-- A single safe molecule of mass 1 and rotational inertia 1 moving upward with unit
speed, all forces and torques zero. -/
def oneMoleculeDataSet : WaterDataSet :=
  { numberOfMolecules := 1
  , numberOfSafeMolecules := 1
  , moleculeCenterOfMassPositions := fun _ => (0, 0)
  , atomPositions := fun _ => (0, 0)
  , moleculeVelocities := fun _ => (0, 1)
  , moleculeForces := fun _ => (0, 0)
  , nextMoleculeForces := fun _ => (0, 0)
  , moleculeRotationAngles := fun _ => 0
  , moleculeRotationRates := fun _ => 0
  , moleculeTorques := fun _ => 0
  , nextMoleculeTorques := fun _ => 0
  , moleculeMass := 1
  , moleculeRotationalInertia := 1 }

/-- A concrete one-molecule model state: warm (no gravity boost, melted-charge regime),
zero gravity, intact container. -/
def oneMoleculeState : WaterModelState :=
  { moleculeDataSet := oneMoleculeDataSet
  , temperatureSetPoint := 1
  , gravitationalAcceleration := 0
  , normalizedContainerHeight := 10
  , normalizedContainerWidth := 10
  , pressureState := { pressure := 0, isExploded := false }
  , temperature := 0
  , potentialEnergy := 0 }

/-! ### C4 and C5: pressure update and explosion monotonicity -/

/-- C4: with the container not exploded, updatePressure sets
pressure to (dt/12)·impulseTerm + (1 − dt/12)·previous — the impulse term being the
accumulated wall force divided by (container width + height) — and explodes the
container exactly when the new pressure exceeds EXPLOSION_PRESSURE; with the container
already exploded the pressure is set to 0. -/
theorem updatePressure_spec (w h : ℚ) (s : PressureState) (f dt : ℚ) :
    PRESSURE_CALC_TIME_WINDOW = 12 ∧
    (s.isExploded = false →
      (updatePressure w h s f dt).pressure
          = dt / PRESSURE_CALC_TIME_WINDOW * (f / (w + h))
            + (1 - dt / PRESSURE_CALC_TIME_WINDOW) * s.pressure
      ∧ ((updatePressure w h s f dt).isExploded = true ↔
          (updatePressure w h s f dt).pressure > EXPLOSION_PRESSURE)) ∧
    (s.isExploded = true → (updatePressure w h s f dt).pressure = 0) := by
  refine ⟨rfl, ?_, ?_⟩
  · intro hE
    unfold updatePressure
    simp only [hE, Bool.false_eq_true, if_false]
    try dsimp only
    constructor
    · split_ifs with hc <;>
        · dsimp only
          unfold PRESSURE_CALC_TIME_WINDOW
          ring
    · split_ifs with hc
      · dsimp only
        exact iff_of_true rfl hc.1
      · dsimp only
        refine iff_of_false (by simp) ?_
        intro hgt
        exact hc ⟨hgt, trivial⟩
  · intro hE
    unfold updatePressure
    simp only [hE, if_true]

/-- Witness for C4 at a concrete intact container. -/
theorem updatePressure_spec_witness :
    (updatePressure 2 1 { pressure := 0, isExploded := false } 6 1).pressure
      = 1 / PRESSURE_CALC_TIME_WINDOW * ((6 : ℚ) / (2 + 1))
        + (1 - 1 / PRESSURE_CALC_TIME_WINDOW) * 0 :=
  ((updatePressure_spec 2 1 { pressure := 0, isExploded := false } 6 1).2.1 rfl).1

/-- The pressure state produced by the water step is exactly an updatePressure call on
the previous pressure state (for some accumulated wall force). -/
theorem updateForcesAndMotion_pressure (env : WaterEnv) (ws : WaterModelState) (t : ℚ) :
    ∃ f, (updateForcesAndMotion env ws t).pressureState
      = updatePressure ws.normalizedContainerWidth ws.normalizedContainerHeight
          ws.pressureState f t :=
  ⟨_, rfl⟩

/-- C5: updatePressure never clears the exploded flag (true stays true); the only
false-to-true transition happens when the new pressure exceeds EXPLOSION_PRESSURE; and
the full water step preserves an already-exploded flag (its only write to the flag is
the updatePressure call). -/
theorem isExplodedMonotone (w h : ℚ) (s : PressureState) (f dt : ℚ)
    (env : WaterEnv) (ws : WaterModelState) (timeStep : ℚ) :
    (s.isExploded = true → (updatePressure w h s f dt).isExploded = true) ∧
    (s.isExploded = false → (updatePressure w h s f dt).isExploded = true →
      (updatePressure w h s f dt).pressure > EXPLOSION_PRESSURE) ∧
    (ws.pressureState.isExploded = true →
      (updateForcesAndMotion env ws timeStep).pressureState.isExploded = true) := by
  refine ⟨?_, ?_, ?_⟩
  · intro hE
    unfold updatePressure
    simp only [hE, if_true]
  · intro hE
    unfold updatePressure
    simp only [hE, Bool.false_eq_true, if_false]
    try dsimp only
    split_ifs with hc
    · intro _
      exact hc.1
    · intro hFalse
      exact absurd hFalse (by simp)
  · intro hE
    obtain ⟨f2, hf2⟩ := updateForcesAndMotion_pressure env ws timeStep
    rw [hf2]
    unfold updatePressure
    simp only [hE, if_true]

/-- Witness for C5 at a concrete exploded container and a concrete step. -/
theorem isExplodedMonotone_witness :
    (updatePressure 1 1 { pressure := 3, isExploded := true } 0 1).isExploded = true :=
  (isExplodedMonotone 1 1 { pressure := 3, isExploded := true } 0 1
    constEnv oneMoleculeState 0).1 rfl

/-! ### C1: temperature versus summed kinetic energy -/

/-- The temperature the specification describes: the sum over all molecules of the
translational kinetic energy 0.5·mass·(vx² + vy²) plus the rotational kinetic energy
0.5·inertia·rate², divided by the number of molecules and by 1.5.  (Stated from the
claim's words, for comparison against the code's recorded temperature.) -/
def claimedTemperature (n : ℕ) (mass rotationalInertia : ℚ)
    (velocities : ℕ → ℚ × ℚ) (rotationRates : ℕ → ℚ) : ℚ :=
  (∑ i in Finset.range n,
      (0.5 * mass * ((velocities i).1 ^ 2 + (velocities i).2 ^ 2) +
        0.5 * rotationalInertia * rotationRates i ^ 2)) / (n : ℚ) / 1.5

/-- C1: the temperature recorded by the water step disagrees with the claimed
kinetic-energy formula.  With one molecule of mass 1 whose post-update velocity is
(0, 1) and rotation rate 0, the source line
`0.5 * mass * vx * vx + vy * vy` (missing parentheses leave `vy * vy` outside the
`0.5 * mass` product) records temperature 2/3, while the claimed formula gives 1/3. -/
theorem waterTemperature_mismatch :
    (updateForcesAndMotion constEnv oneMoleculeState 0).temperature = 2 / 3 ∧
    claimedTemperature 1 oneMoleculeDataSet.moleculeMass
        oneMoleculeDataSet.moleculeRotationalInertia
        (updateForcesAndMotion constEnv oneMoleculeState 0).moleculeDataSet.moleculeVelocities
        (updateForcesAndMotion constEnv oneMoleculeState 0).moleculeDataSet.moleculeRotationRates
      = 1 / 3 ∧
    (2 / 3 : ℚ) ≠ 1 / 3 := by
  refine ⟨?_, ?_, by norm_num⟩
  · norm_num [updateForcesAndMotion, updateVelocitiesAndTemperature, constEnv,
      oneMoleculeState, oneMoleculeDataSet]
  · norm_num [claimedTemperature, updateForcesAndMotion, updateVelocitiesAndTemperature,
      constEnv, oneMoleculeState, oneMoleculeDataSet]

/-! ### C7: rotation rate -/

/-- A one-molecule state whose rotation rate is |M| + 1, for exhibiting unbounded
post-step rotation rates. -/
def spinState (M : ℚ) : WaterModelState :=
  { oneMoleculeState with
      moleculeDataSet :=
        { oneMoleculeDataSet with moleculeRotationRates := fun _ => |M| + 1 } }

/-- C7 counterexample: there is no fixed maximum magnitude that bounds every molecule's
rotation rate after a water step — the update applies no clamp, so for any candidate
bound M the state spinState M exceeds it after a zero-time step. -/
theorem waterRotationRate_unbounded :
    ¬ ∃ M : ℚ, ∀ (env : WaterEnv) (s : WaterModelState) (timeStep : ℚ) (i : ℕ),
        i < s.moleculeDataSet.numberOfMolecules →
        |(updateForcesAndMotion env s timeStep).moleculeDataSet.moleculeRotationRates i|
          ≤ M := by
  rintro ⟨M, hM⟩
  have h0 : (0 : ℕ) < (spinState M).moleculeDataSet.numberOfMolecules := by
    simp [spinState, oneMoleculeState, oneMoleculeDataSet]
  have h := hM constEnv (spinState M) 0 0 h0
  have hr : (updateForcesAndMotion constEnv (spinState M) 0).moleculeDataSet.moleculeRotationRates 0
      = |M| + 1 := by
    simp [updateForcesAndMotion, updateVelocitiesAndTemperature, spinState,
      oneMoleculeState, oneMoleculeDataSet, constEnv]
  rw [hr] at h
  rw [abs_of_nonneg (by positivity)] at h
  linarith [le_abs_self M]

/-- C7 amended: the water velocity/rotation-rate update applies no clamp — each
molecule's new rotation rate is exactly the old rate plus
(timeStep/2)·(torque + nextTorque)·(1/rotationalInertia). -/
theorem waterRotationRate_update (timeStep : ℚ) (n : ℕ) (ds : WaterDataSet) (i : ℕ)
    (h : i < n) :
    ((updateVelocitiesAndTemperature timeStep n ds).1).moleculeRotationRates i
      = ds.moleculeRotationRates i +
          timeStep / 2 * (ds.moleculeTorques i + ds.nextMoleculeTorques i) *
            (1 / ds.moleculeRotationalInertia) := by
  simp [updateVelocitiesAndTemperature, h]

/-- Witness for C7's amended statement at a concrete molecule. -/
theorem waterRotationRate_update_witness :
    ((updateVelocitiesAndTemperature 1 1 oneMoleculeDataSet).1).moleculeRotationRates 0
      = oneMoleculeDataSet.moleculeRotationRates 0 +
          1 / 2 * (oneMoleculeDataSet.moleculeTorques 0 +
            oneMoleculeDataSet.nextMoleculeTorques 0) *
            (1 / oneMoleculeDataSet.moleculeRotationalInertia) :=
  waterRotationRate_update 1 1 oneMoleculeDataSet 0 (by decide)

/-! ### C2: phase temperature constants -/

/-- C2 counterexample: in this fork the fixed phase temperatures are NOT ordered
solid < liquid < gas: SOLID_TEMPERATURE = 10.0 exceeds LIQUID_TEMPERATURE = 0.34. -/
theorem solidTemperature_not_lowest :
    ¬ (SOLID_TEMPERATURE < LIQUID_TEMPERATURE ∧ LIQUID_TEMPERATURE < GAS_TEMPERATURE) := by
  norm_num [SOLID_TEMPERATURE, LIQUID_TEMPERATURE, GAS_TEMPERATURE]

/-! ### C3: hydrogen exclusion -/

/-- C3 counterexample: molecule 0 (an even-indexed molecule) has NO excluded hydrogen —
neither of its hydrogen atoms (local indices 1 and 2, flat indices 1 and 2) satisfies
the skip condition of the electrostatic loop, so both contribute to the sum. -/
theorem moleculeZeroHydrogensIncluded :
    ¬ ∃ ii : ℕ, (ii = 1 ∨ ii = 2) ∧ excludedAtom (3 * 0 + ii) := by
  rintro ⟨ii, hii | hii, hex⟩ <;> subst hii <;> revert hex <;> decide

/-- C3 amended: the skip condition of the coulomb-like loop holds for the flat atom
index 3·i + ii (with local atom index ii < 3) exactly when the molecule index i is odd
and ii = 2 — one hydrogen of every odd-indexed molecule is excluded, and no atom of any
even-indexed molecule is. -/
theorem excludedAtom_characterization (i ii : ℕ) (h : ii < 3) :
    excludedAtom (3 * i + ii) ↔ (i % 2 = 1 ∧ ii = 2) := by
  unfold excludedAtom
  omega

/-- Witness for C3's amended statement: the second hydrogen of molecule 1 is excluded. -/
theorem excludedAtom_characterization_witness :
    excludedAtom (3 * 1 + 2) ↔ (1 % 2 = 1 ∧ 2 = 2) :=
  excludedAtom_characterization 1 2 (by decide)

/-! ### C6: inside-container hysteresis -/

/-- C6 counterexample: with walls left=0, right=10, top=10, bottom=0, a molecule
currently outside whose position (0, 5) lies within [left,right]×[bottom,top]
inclusive on both axes does NOT transition to inside — the x comparison in the source
is strict, so sitting exactly on the left wall keeps the flag false. -/
theorem checkInContainer_boundary :
    checkInContainer (0, 5) 0 10 10 0 false = false ∧
    (0 : ℚ) ≤ 0 ∧ (0 : ℚ) ≤ 10 ∧ (0 : ℚ) ≤ 5 ∧ (5 : ℚ) ≤ 10 := by
  refine ⟨by norm_num [checkInContainer], by norm_num, by norm_num, by norm_num, by norm_num⟩

/-- C6 amended: the monatomic updater's inside-container transition, with walls
adjusted by the lid offset as at the call site: an outside molecule becomes inside
exactly when left < x < right − offset strictly on x and bottom ≤ y ≤ top − offset
inclusive on y; an inside molecule becomes outside exactly when y reaches or exceeds
(top − offset) + 2. -/
theorem monatomicInside_spec (L R T B offset : ℚ) (p : ℚ × ℚ) :
    (monatomicInsideContainerUpdate L R T B offset p false = true ↔
      (L < p.1 ∧ p.1 < R - offset ∧ B ≤ p.2 ∧ p.2 ≤ T - offset)) ∧
    (monatomicInsideContainerUpdate L R T B offset p true = false ↔
      T - offset + 2 ≤ p.2) := by
  constructor
  · simp only [monatomicInsideContainerUpdate, checkInContainer, Bool.false_eq_true,
      false_and, if_false, true_and]
    split_ifs with hP
    · refine iff_of_true rfl ?_
      obtain ⟨h1, h2, h3, h4⟩ := hP
      exact ⟨h1, h2, h4, h3⟩
    · refine iff_of_false (by simp) ?_
      rintro ⟨h1, h2, h3, h4⟩
      exact hP ⟨h1, h2, h4, h3⟩
  · simp only [monatomicInsideContainerUpdate, checkInContainer, true_and,
      Bool.true_eq_false, false_and, if_false]
    split_ifs with hP
    · exact iff_of_true rfl hP
    · exact iff_of_false (by simp) hP

/-! ### Analysis of setPhaseSolid -/

/-- Evaluation rule for Nat.sqrt. -/
theorem natSqrt_eval (m a : ℕ) (h1 : a * a ≤ m) (h2 : m < (a + 1) * (a + 1)) :
    Nat.sqrt m = a :=
  (Nat.eq_sqrt.mpr ⟨h1, h2⟩).symm

/-- jsRoundSqrt dominates Nat.sqrt. -/
theorem jsRoundSqrt_ge_sqrt (m : ℕ) : Nat.sqrt m ≤ jsRoundSqrt m := by
  unfold jsRoundSqrt
  dsimp only
  split_ifs <;> omega

/-- A populated data set has at least one molecule per row. -/
theorem rowCapacity_pos (n : ℕ) (hn : 1 ≤ n) : 1 ≤ rowCapacity n := by
  unfold rowCapacity
  have h1 : 1 ≤ Nat.sqrt (n * 2) := Nat.le_sqrt.mpr (by omega)
  have h2 := jsRoundSqrt_ge_sqrt (n * 2)
  omega

/-- When the rounded square root is even, moleculesPerLayer is the integer rowCapacity. -/
theorem moleculesPerLayer_even (n : ℕ) (h : jsRoundSqrt (n * 2) % 2 = 0) :
    moleculesPerLayer n = (rowCapacity n : ℚ) := by
  unfold moleculesPerLayer rowCapacity
  have h2 : (jsRoundSqrt (n * 2) + 1) / 2 = jsRoundSqrt (n * 2) / 2 := by omega
  have h3 : jsRoundSqrt (n * 2) = 2 * (jsRoundSqrt (n * 2) / 2) := by omega
  rw [h2]
  conv_lhs => rw [h3]
  push_cast
  ring

/-- A natural-number array index below the length succeeds. -/
theorem ratIndex_natCast (n k : ℕ) (h : k < n) : ratIndex n ((k : ℕ) : ℚ) = some k := by
  unfold ratIndex
  rw [if_pos]
  · simp
  · refine ⟨by simp, by simp, ?_⟩
    simp only [Rat.num_natCast]
    exact_mod_cast h

/-- A half-odd rational array index fails: its denominator is 2, not 1. -/
theorem ratIndex_fracHalf (n r : ℕ) (hodd : r % 2 = 1) :
    ratIndex n ((r : ℚ) / 2) = none := by
  unfold ratIndex
  rw [if_neg]
  rintro ⟨h1, h2, h3⟩
  have hint : ((((r : ℚ) / 2).num : ℤ) : ℚ) = (r : ℚ) / 2 :=
    Rat.coe_int_num_of_den_eq_one h1
  have hq : (r : ℚ) = 2 * (((r : ℚ) / 2).num : ℚ) := by
    field_simp at hint
    linarith [hint]
  have hz : (r : ℤ) = 2 * ((r : ℚ) / 2).num := by exact_mod_cast hq
  omega

/-- Distinct layers own disjoint index ranges: for m ≠ i and j < c, the first index of
layer m differs from index j of layer i. -/
theorem layerIndexSeparation (c i j m : ℕ) (hc : 1 ≤ c) (hj : j < c) (hm : m ≠ i) :
    m * c ≠ i * c + j := by
  rcases Nat.lt_or_ge m i with h | h
  · have h3 : m * c + c ≤ i * c := by
      calc m * c + c = (m + 1) * c := by ring
        _ ≤ i * c := Nat.mul_le_mul_right c h
    intro heq
    rw [heq] at h3
    omega
  · have h2 : i < m := lt_of_le_of_ne h (fun he => hm he.symm)
    have h3 : i * c + c ≤ m * c := by
      calc i * c + c = (i + 1) * c := by ring
        _ ≤ m * c := Nat.mul_le_mul_right c h2
    intro heq
    rw [heq] at h3
    omega

/-- The characterisation of the placement state of setPhaseSolid after p molecules have
been placed, relative to the pre-call state s: temperature set, the first p molecules
on the grid with zero rotation angle and the Gaussian-drawn velocities, all later
molecules untouched, and insideContainer[m] forced true exactly for the layers m whose
first index m·c is already covered. -/
def solidChar (n : ℕ) (startX startY d ts : ℚ) (g : ℕ → ℚ) (s : SolidPhaseState)
    (p : ℕ) (st : SolidPhaseState) : Prop :=
  st.temperatureSetPoint = SOLID_TEMPERATURE ∧
  (∀ k, k < p →
      st.moleculeCenterOfMassPositions k = solidGridPos startX startY d (rowCapacity n) k ∧
      st.moleculeRotationAngles k = 0 ∧
      st.moleculeVelocities k = (ts * g (2 * k), ts * g (2 * k + 1))) ∧
  (∀ k, p ≤ k →
      st.moleculeCenterOfMassPositions k = s.moleculeCenterOfMassPositions k ∧
      st.moleculeRotationAngles k = s.moleculeRotationAngles k ∧
      st.moleculeVelocities k = s.moleculeVelocities k) ∧
  (∀ m, st.insideContainer m =
      if m * rowCapacity n < p then true else s.insideContainer m)

/-- One placement step preserves the characterisation, advancing the placed count. -/
theorem placeMolecule_step (n : ℕ) (startX startY d ts : ℚ) (g : ℕ → ℚ)
    (s : SolidPhaseState)
    (i j : ℕ) (hOK : jsRoundSqrt (n * 2) % 2 = 0 ∨ n ≤ rowCapacity n ∨ i = 0)
    (hj : j < rowCapacity n) (st : SolidPhaseState)
    (hchar : solidChar n startX startY d ts g s (min n (i * rowCapacity n + j)) st) :
    ∃ st2, placeMolecule n startX startY d ts g i j (st, min n (i * rowCapacity n + j))
        = some (st2, min n (i * rowCapacity n + j + 1))
      ∧ solidChar n startX startY d ts g s (min n (i * rowCapacity n + j + 1)) st2 := by
  by_cases hp : i * rowCapacity n + j < n
  case neg =>
    have hmin1 : min n (i * rowCapacity n + j) = n := min_eq_left (le_of_not_lt hp)
    have hmin2 : min n (i * rowCapacity n + j + 1) = n :=
      min_eq_left (le_trans (le_of_not_lt hp) (Nat.le_succ _))
    refine ⟨st, ?_, ?_⟩
    · unfold placeMolecule
      rw [hmin1, hmin2]
      rw [if_neg (lt_irrefl n)]
    · rw [hmin2]
      rw [hmin1] at hchar
      exact hchar
  case pos =>
    have hmin1 : min n (i * rowCapacity n + j) = i * rowCapacity n + j :=
      min_eq_right (le_of_lt hp)
    have hmin2 : min n (i * rowCapacity n + j + 1) = i * rowCapacity n + j + 1 :=
      min_eq_right hp
    have hn1 : 1 ≤ n := lt_of_le_of_lt (Nat.zero_le _) hp
    have hc1 : 1 ≤ rowCapacity n := rowCapacity_pos n hn1
    have hidx : (i : ℚ) * moleculesPerLayer n + (j : ℚ)
        = ((i * rowCapacity n + j : ℕ) : ℚ) := by
      rcases hOK with he | hle | hi0
      · rw [moleculesPerLayer_even n he]
        push_cast
        ring
      · have hi0 : i = 0 := by
          by_contra hi
          have h1 : 1 ≤ i := Nat.one_le_iff_ne_zero.mpr hi
          have h2 : rowCapacity n ≤ i * rowCapacity n := by
            calc rowCapacity n = 1 * rowCapacity n := (one_mul _).symm
              _ ≤ i * rowCapacity n := Nat.mul_le_mul_right _ h1
          have h4 : n ≤ i * rowCapacity n + j :=
            le_trans hle (le_trans h2 (Nat.le_add_right _ _))
          exact absurd hp (not_lt.mpr h4)
        subst hi0
        push_cast
        ring
      · subst hi0
        push_cast
        ring
    have hri : ratIndex n ((i : ℚ) * moleculesPerLayer n + (j : ℚ))
        = some (i * rowCapacity n + j) := by
      rw [hidx]
      exact ratIndex_natCast n _ hp
    have hmod : (i * rowCapacity n + j) % rowCapacity n = j := by
      rw [mul_comm, Nat.mul_add_mod, Nat.mod_eq_of_lt hj]
    have hdiv : (i * rowCapacity n + j) / rowCapacity n = i := by
      rw [mul_comm, Nat.mul_add_div hc1, Nat.div_eq_of_lt hj, add_zero]
    rw [hmin1] at hchar
    rw [hmin1, hmin2]
    obtain ⟨hT, hPlaced, hOld, hIn⟩ := hchar
    refine ⟨{ st with
        moleculeCenterOfMassPositions :=
          Function.update st.moleculeCenterOfMassPositions (i * rowCapacity n + j)
            (startX + (j : ℚ) * MIN_INITIAL_DIAMETER_DISTANCE +
               (if i % 2 ≠ 0 then (1 + d) / 2 else 0),
             startY + (i : ℚ) * MIN_INITIAL_DIAMETER_DISTANCE * 0.5)
      , moleculeRotationAngles :=
          Function.update st.moleculeRotationAngles (i * rowCapacity n + j) 0
      , moleculeVelocities :=
          Function.update st.moleculeVelocities (i * rowCapacity n + j)
            (ts * g (2 * (i * rowCapacity n + j)),
             ts * g (2 * (i * rowCapacity n + j) + 1))
      , insideContainer := Function.update st.insideContainer i true }, ?_, ?_⟩
    · unfold placeMolecule
      rw [if_pos hp]
      dsimp only
      rw [hri]
    · refine ⟨hT, ?_, ?_, ?_⟩
      · intro k hk
        rcases Nat.lt_or_ge k (i * rowCapacity n + j) with hk2 | hk2
        · have hne : k ≠ i * rowCapacity n + j := Nat.ne_of_lt hk2
          obtain ⟨h1, h2, h3⟩ := hPlaced k hk2
          refine ⟨?_, ?_, ?_⟩ <;>
            · dsimp only
              rw [Function.update_noteq hne]
              assumption
        · have hkeq : k = i * rowCapacity n + j := by omega
          subst hkeq
          refine ⟨?_, ?_, ?_⟩
          · dsimp only
            rw [Function.update_same]
            unfold solidGridPos
            rw [hmod, hdiv]
          · dsimp only
            rw [Function.update_same]
          · dsimp only
            rw [Function.update_same]
      · intro k hk
        have hne : k ≠ i * rowCapacity n + j := by omega
        have hk2 : i * rowCapacity n + j ≤ k := by omega
        obtain ⟨h1, h2, h3⟩ := hOld k hk2
        refine ⟨?_, ?_, ?_⟩ <;>
          · dsimp only
            rw [Function.update_noteq hne]
            assumption
      · intro m
        rcases eq_or_ne m i with rfl | hm
        · dsimp only
          rw [Function.update_same]
          rw [if_pos (Nat.lt_succ_of_le (Nat.le_add_right _ _))]
        · dsimp only
          rw [Function.update_noteq hm]
          rw [hIn m]
          have hne := layerIndexSeparation (rowCapacity n) i j m hc1 hj hm
          by_cases hlt : m * rowCapacity n < i * rowCapacity n + j
          · rw [if_pos hlt, if_pos (Nat.lt_succ_of_lt hlt)]
          · have hgt : i * rowCapacity n + j < m * rowCapacity n :=
              lt_of_le_of_ne (le_of_not_lt hlt) (Ne.symm hne)
            rw [if_neg hlt, if_neg (not_lt.mpr (Nat.succ_le_of_lt hgt))]

/-- The first u slots of a layer preserve the characterisation, advancing the target
placed count by u. -/
theorem placeLayerPartial_char (n : ℕ) (startX startY d ts : ℚ) (g : ℕ → ℚ)
    (s : SolidPhaseState) (i : ℕ)
    (hOK : jsRoundSqrt (n * 2) % 2 = 0 ∨ n ≤ rowCapacity n ∨ i = 0) :
    ∀ (u : ℕ), u ≤ rowCapacity n → ∀ st,
      solidChar n startX startY d ts g s (min n (i * rowCapacity n)) st →
      ∃ st2, (List.range u).foldl
          (fun oa j => oa.bind (placeMolecule n startX startY d ts g i j))
          (some (st, min n (i * rowCapacity n)))
        = some (st2, min n (i * rowCapacity n + u))
      ∧ solidChar n startX startY d ts g s (min n (i * rowCapacity n + u)) st2 := by
  intro u
  induction u with
  | zero =>
    intro _ st hchar
    exact ⟨st, by simp, by simpa using hchar⟩
  | succ u ih =>
    intro hu st hchar
    obtain ⟨st2, heq, hchar2⟩ := ih (le_trans (Nat.le_succ u) hu) st hchar
    obtain ⟨st3, heq3, hchar3⟩ :=
      placeMolecule_step n startX startY d ts g s i u hOK (lt_of_lt_of_le (Nat.lt_succ_self u) hu)
        st2 hchar2
    refine ⟨st3, ?_, ?_⟩
    · rw [List.range_succ, List.foldl_append, heq]
      simpa using heq3
    · exact hchar3

/-- Processing whole layers 0..t-1 yields the characterisation at min n (t·c). -/
theorem solidLayers_char (n : ℕ) (startX startY d ts : ℚ) (g : ℕ → ℚ)
    (s : SolidPhaseState) :
    ∀ (t : ℕ),
      (∀ i, i < t → (jsRoundSqrt (n * 2) % 2 = 0 ∨ n ≤ rowCapacity n ∨ i = 0)) →
      ∀ (st : SolidPhaseState),
      solidChar n startX startY d ts g s 0 st →
      ∃ st2, (List.range t).foldl
          (fun oa i => oa.bind (placeLayer n startX startY d ts g i))
          (some (st, 0))
        = some (st2, min n (t * rowCapacity n))
      ∧ solidChar n startX startY d ts g s (min n (t * rowCapacity n)) st2 := by
  intro t
  induction t with
  | zero =>
    intro _ st hchar
    exact ⟨st, by simp, by simpa using hchar⟩
  | succ t ih =>
    intro hgood st hchar
    obtain ⟨st2, heq, hchar2⟩ :=
      ih (fun i hi => hgood i (lt_trans hi (Nat.lt_succ_self t))) st hchar
    have hOK : jsRoundSqrt (n * 2) % 2 = 0 ∨ n ≤ rowCapacity n ∨ t = 0 :=
      hgood t (Nat.lt_succ_self t)
    obtain ⟨st3, heq3, hchar3⟩ :=
      placeLayerPartial_char n startX startY d ts g s t hOK (rowCapacity n) (le_refl _) st2
        hchar2
    have hmul : t * rowCapacity n + rowCapacity n = (t + 1) * rowCapacity n := by ring
    refine ⟨st3, ?_, ?_⟩
    · rw [List.range_succ, List.foldl_append, heq]
      simp only [List.foldl_cons, List.foldl_nil, Option.some_bind]
      unfold placeLayer
      rw [← hmul]
      exact heq3
    · rw [hmul] at hchar3
      exact hchar3

/-- Full characterisation of a good setPhaseSolid run (rounded square root even, or at
most one layer needed): the call succeeds and the final state satisfies solidChar at
min n (n·c) = n placed molecules. -/
theorem setPhaseSolid_char (n : ℕ) (w d ts : ℚ) (g : ℕ → ℚ) (s : SolidPhaseState)
    (hgood : jsRoundSqrt (n * 2) % 2 = 0 ∨ n ≤ rowCapacity n) :
    ∃ st2, setPhaseSolid n w d ts g s = some st2
      ∧ solidChar n (w / 2 - moleculesPerLayer n * (2.0 - 0.3) / 2) (1.2 + d) d ts g s
          (min n (n * rowCapacity n)) st2 := by
  have hbase : solidChar n (w / 2 - moleculesPerLayer n * (2.0 - 0.3) / 2) (1.2 + d) d ts g s
      0 (setTemperature s SOLID_TEMPERATURE) := by
    refine ⟨rfl, ?_, ?_, ?_⟩
    · intro k hk
      exact absurd hk (Nat.not_lt_zero k)
    · intro k _
      exact ⟨rfl, rfl, rfl⟩
    · intro m
      rw [if_neg (Nat.not_lt_zero _)]
      rfl
  obtain ⟨st2, heq, hchar⟩ :=
    solidLayers_char n (w / 2 - moleculesPerLayer n * (2.0 - 0.3) / 2) (1.2 + d) d ts g s
      n (fun i _ => hgood.imp id Or.inl)
      (setTemperature s SOLID_TEMPERATURE) hbase
  refine ⟨st2, ?_, hchar⟩
  unfold setPhaseSolid
  dsimp only
  rw [heq]
  rfl

/-- Extending a partially-failed Option fold over a larger range stays failed. -/
theorem bindFold_range_none {α : Type} (h : ℕ → α → Option α) (t n : ℕ) (ht : t ≤ n)
    (a : Option α)
    (hnone : (List.range t).foldl (fun oa x => oa.bind (h x)) a = none) :
    (List.range n).foldl (fun oa x => oa.bind (h x)) a = none := by
  obtain ⟨m, rfl⟩ := Nat.exists_eq_add_of_le ht
  rw [List.range_add, List.foldl_append, hnone]
  exact bindFoldNone _ _

/-- With an odd rounded square root and more molecules than one row holds, the second
layer's first write hits the fractional array index moleculesPerLayer = r/2 and the
placement fails: setPhaseSolid returns none (a TypeError in the JavaScript). -/
theorem setPhaseSolid_none (n : ℕ) (w d ts : ℚ) (g : ℕ → ℚ) (s : SolidPhaseState)
    (hodd : jsRoundSqrt (n * 2) % 2 = 1) (hgt : rowCapacity n < n) :
    setPhaseSolid n w d ts g s = none := by
  have hn1 : 1 ≤ n := lt_of_le_of_lt (Nat.zero_le _) hgt
  have hc1 : 1 ≤ rowCapacity n := rowCapacity_pos n hn1
  have hbase : solidChar n (w / 2 - moleculesPerLayer n * (2.0 - 0.3) / 2) (1.2 + d) d ts g s
      0 (setTemperature s SOLID_TEMPERATURE) := by
    refine ⟨rfl, ?_, ?_, ?_⟩
    · intro k hk
      exact absurd hk (Nat.not_lt_zero k)
    · intro k _
      exact ⟨rfl, rfl, rfl⟩
    · intro m
      rw [if_neg (Nat.not_lt_zero _)]
      rfl
  -- layer 0 alone succeeds and places exactly rowCapacity n molecules
  obtain ⟨st1, heq1, hchar1⟩ :=
    solidLayers_char n (w / 2 - moleculesPerLayer n * (2.0 - 0.3) / 2) (1.2 + d) d ts g s
      1 (fun i hi => Or.inr (Or.inr (by omega)))
      (setTemperature s SOLID_TEMPERATURE) hbase
  have hmin : min n (1 * rowCapacity n) = rowCapacity n := by
    rw [one_mul]
    exact min_eq_right (le_of_lt hgt)
  rw [hmin] at heq1
  -- the first slot of layer 1 fails on the fractional index
  have hfail : placeMolecule n (w / 2 - moleculesPerLayer n * (2.0 - 0.3) / 2) (1.2 + d) d ts g
      1 0 (st1, rowCapacity n) = none := by
    unfold placeMolecule
    rw [if_pos hgt]
    dsimp only
    have hidx : ((1 : ℕ) : ℚ) * moleculesPerLayer n + ((0 : ℕ) : ℚ)
        = ((jsRoundSqrt (n * 2) : ℕ) : ℚ) / 2 := by
      unfold moleculesPerLayer
      push_cast
      ring
    rw [hidx, ratIndex_fracHalf n _ hodd]
  have hlayer1 : placeLayer n (w / 2 - moleculesPerLayer n * (2.0 - 0.3) / 2) (1.2 + d) d ts g
      1 (st1, rowCapacity n) = none := by
    unfold placeLayer
    obtain ⟨c2, hc2⟩ := Nat.exists_eq_add_of_le hc1
    rw [hc2] at hfail ⊢
    rw [show 1 + c2 = c2 + 1 by omega] at hfail ⊢
    rw [List.range_succ_eq_map]
    simp only [List.foldl_cons, Option.some_bind]
    rw [hfail]
    exact bindFoldNone _ _
  -- the fold over the first two layers is none, hence the whole fold is none
  have h2 : (List.range 2).foldl
      (fun oa i => oa.bind
        (placeLayer n (w / 2 - moleculesPerLayer n * (2.0 - 0.3) / 2) (1.2 + d) d ts g i))
      (some ((setTemperature s SOLID_TEMPERATURE), 0)) = none := by
    have : (List.range 2) = (List.range 1) ++ [1] := rfl
    rw [this, List.foldl_append, heq1]
    simp only [List.foldl_cons, List.foldl_nil, Option.some_bind]
    exact hlayer1
  unfold setPhaseSolid
  dsimp only
  rw [bindFold_range_none _ 2 n (by omega) _ h2]
  rfl

/-- Any successful setPhaseSolid run satisfies the full characterisation with all n
molecules placed. -/
theorem setPhaseSolid_success_char (n : ℕ) (w d ts : ℚ) (g : ℕ → ℚ)
    (s st2 : SolidPhaseState) (h : setPhaseSolid n w d ts g s = some st2) :
    solidChar n (w / 2 - moleculesPerLayer n * (2.0 - 0.3) / 2) (1.2 + d) d ts g s n st2 := by
  by_cases hgood : jsRoundSqrt (n * 2) % 2 = 0 ∨ n ≤ rowCapacity n
  · obtain ⟨st3, h3, hchar⟩ := setPhaseSolid_char n w d ts g s hgood
    rw [h] at h3
    obtain rfl : st2 = st3 := Option.some.inj h3
    have hmin : min n (n * rowCapacity n) = n := by
      rcases Nat.eq_zero_or_pos n with h0 | h0
      · subst h0
        simp
      · exact min_eq_left (Nat.le_mul_of_pos_right n (rowCapacity_pos n h0))
    rw [hmin] at hchar
    exact hchar
  · push_neg at hgood
    obtain ⟨hodd, hgt⟩ := hgood
    rw [setPhaseSolid_none n w d ts g s (by omega) hgt] at h
    cases h

/-! ### Concrete evaluations for the solid phase -/

/-- jsRoundSqrt 2 = 1 (√2 ≈ 1.41 rounds to 1). -/
theorem jsRoundSqrt_two : jsRoundSqrt 2 = 1 := by
  unfold jsRoundSqrt
  dsimp only
  rw [natSqrt_eval 2 1 (by norm_num) (by norm_num)]
  norm_num

/-- jsRoundSqrt 4 = 2. -/
theorem jsRoundSqrt_four : jsRoundSqrt 4 = 2 := by
  unfold jsRoundSqrt
  dsimp only
  rw [natSqrt_eval 4 2 (by norm_num) (by norm_num)]
  norm_num

/-- One molecule: one per row. -/
theorem rowCapacity_one : rowCapacity 1 = 1 := by
  unfold rowCapacity
  norm_num [jsRoundSqrt_two]

/-- Two molecules: still only one per row (round(√4)/2 = 1). -/
theorem rowCapacity_two : rowCapacity 2 = 1 := by
  unfold rowCapacity
  norm_num [jsRoundSqrt_four]

/-- A concrete pre-call state: all molecules at the origin, at rest, with nonzero
rotation angle 7, flagged outside the container. -/
def solidInit : SolidPhaseState :=
  { temperatureSetPoint := 0
  , moleculeCenterOfMassPositions := fun _ => (0, 0)
  , moleculeVelocities := fun _ => (0, 0)
  , moleculeRotationAngles := fun _ => 7
  , insideContainer := fun _ => false }

/-! ### C2: phase temperature order, amended -/

/-- C2 amended: the fixed phase temperature constants of this fork satisfy
LIQUID_TEMPERATURE (0.34) < GAS_TEMPERATURE (1.0) < SOLID_TEMPERATURE (10.0) — solid is
the highest, not the lowest — and every successful setPhaseSolid call sets the model
temperature set point to SOLID_TEMPERATURE. -/
theorem phaseTemperatureOrder :
    LIQUID_TEMPERATURE < GAS_TEMPERATURE ∧ GAS_TEMPERATURE < SOLID_TEMPERATURE ∧
    ∀ (n : ℕ) (w d ts : ℚ) (g : ℕ → ℚ) (s st2 : SolidPhaseState),
      setPhaseSolid n w d ts g s = some st2 →
      st2.temperatureSetPoint = SOLID_TEMPERATURE := by
  refine ⟨by norm_num [LIQUID_TEMPERATURE, GAS_TEMPERATURE],
    by norm_num [GAS_TEMPERATURE, SOLID_TEMPERATURE], ?_⟩
  intro n w d ts g s st2 h
  exact (setPhaseSolid_success_char n w d ts g s st2 h).1

/-- Witness for C2's amended statement at a concrete one-molecule call. -/
theorem phaseTemperatureOrder_witness :
    (setPhaseSolid 1 10 0 0 (fun _ => 0) solidInit).map (fun t => t.temperatureSetPoint)
      = some SOLID_TEMPERATURE := by
  obtain ⟨st2, h2, -⟩ := setPhaseSolid_char 1 10 0 0 (fun _ => 0) solidInit
    (Or.inr (by norm_num [rowCapacity_one]))
  rw [h2, Option.map_some']
  exact congrArg some (phaseTemperatureOrder.2.2 1 10 0 0 (fun _ => 0) solidInit st2 h2)

/-! ### C8: solid-phase grid -/

/-- C8 counterexample: with n = 2 molecules the claimed row width ⌈√2⌉ = 2 would put
molecules 0 and 1 in the same row (equal y), but the code places one molecule per row —
molecule 0 at y = 1.2 and molecule 1 at y = 2.2. -/
theorem setPhaseSolid_rowsOfOne :
    (setPhaseSolid 2 10 0 0 (fun _ => 0) solidInit).map
        (fun t => ((t.moleculeCenterOfMassPositions 0).2,
          (t.moleculeCenterOfMassPositions 1).2))
      = some (1.2, 2.2) ∧ (1.2 : ℚ) ≠ 2.2 := by
  constructor
  · have hgood : jsRoundSqrt (2 * 2) % 2 = 0 ∨ (2 : ℕ) ≤ rowCapacity 2 :=
      Or.inl (by norm_num [jsRoundSqrt_four])
    obtain ⟨st2, h2, hchar⟩ := setPhaseSolid_char 2 10 0 0 (fun _ => 0) solidInit hgood
    rw [h2, Option.map_some']
    have hmin : min 2 (2 * rowCapacity 2) = 2 := by norm_num [rowCapacity_two]
    rw [hmin] at hchar
    obtain ⟨h0, -, -⟩ := hchar.2.1 0 (by norm_num)
    obtain ⟨h1, -, -⟩ := hchar.2.1 1 (by norm_num)
    rw [h0, h1]
    norm_num [solidGridPos, rowCapacity_two, MIN_INITIAL_DIAMETER_DISTANCE]
  · norm_num

/-- C8 amended: every molecule k < n of a successful solid placement sits on the grid
cell (column k mod c, row k div c) for row capacity c = ⌈round(√(2n))/2⌉ — NOT
⌈√n⌉ per row — with every other row shifted horizontally by
(1 + DISTANCE_BETWEEN_PARTICLES_IN_CRYSTAL)/2, rows 1 = 2·0.5 apart vertically, and the
molecule's rotation angle reset to zero. -/
theorem setPhaseSolid_grid (n : ℕ) (w d ts : ℚ) (g : ℕ → ℚ) (s st2 : SolidPhaseState)
    (h : setPhaseSolid n w d ts g s = some st2) (k : ℕ) (hk : k < n) :
    st2.moleculeCenterOfMassPositions k
        = solidGridPos (w / 2 - moleculesPerLayer n * (2.0 - 0.3) / 2) (1.2 + d) d
            (rowCapacity n) k
      ∧ st2.moleculeRotationAngles k = 0 := by
  have hchar := setPhaseSolid_success_char n w d ts g s st2 h
  obtain ⟨h1, h2, -⟩ := hchar.2.1 k hk
  exact ⟨h1, h2⟩

/-- Witness for C8's amended statement: at n = 2 the rotation angle of molecule 1
(initially 7) is reset to zero. -/
theorem setPhaseSolid_grid_witness :
    (setPhaseSolid 2 10 0 0 (fun _ => 0) solidInit).map
        (fun t => t.moleculeRotationAngles 1) = some 0 := by
  obtain ⟨st2, h2, -⟩ := setPhaseSolid_char 2 10 0 0 (fun _ => 0) solidInit
    (Or.inl (by norm_num [jsRoundSqrt_four]))
  rw [h2, Option.map_some']
  exact congrArg some
    (setPhaseSolid_grid 2 10 0 0 (fun _ => 0) solidInit st2 h2 1 (by norm_num)).2

/-! ### C10: insideContainer frame effect -/

/-- C10: a successful setPhaseSolid call sets insideContainer[m] to true exactly for the
layer indices m actually used (those with m·c < n, a downward-closed set — i.e. m from 0
to the number of layers used minus one) and leaves every other entry unchanged; the true
values are written at the outer layer-loop counter, not at the molecule index. -/
theorem setPhaseSolid_insideFlags (n : ℕ) (w d ts : ℚ) (g : ℕ → ℚ)
    (s st2 : SolidPhaseState) (h : setPhaseSolid n w d ts g s = some st2) :
    (∀ m, st2.insideContainer m =
        if m * rowCapacity n < n then true else s.insideContainer m)
    ∧ ∀ m1 m2 : ℕ, m1 ≤ m2 → m2 * rowCapacity n < n → m1 * rowCapacity n < n := by
  have hchar := setPhaseSolid_success_char n w d ts g s st2 h
  refine ⟨hchar.2.2.2, ?_⟩
  intro m1 m2 h12 hm2
  exact lt_of_le_of_lt (Nat.mul_le_mul_right _ h12) hm2

/-- Witness for C10: at n = 2 (two layers of one molecule each), insideContainer becomes
true at layer indices 0 and 1 and stays false at index 5. -/
theorem setPhaseSolid_insideFlags_witness :
    (setPhaseSolid 2 10 0 0 (fun _ => 0) solidInit).map
        (fun t => (t.insideContainer 0, t.insideContainer 1, t.insideContainer 5))
      = some (true, true, false) := by
  obtain ⟨st2, h2, -⟩ := setPhaseSolid_char 2 10 0 0 (fun _ => 0) solidInit
    (Or.inl (by norm_num [jsRoundSqrt_four]))
  rw [h2, Option.map_some']
  have hflags := (setPhaseSolid_insideFlags 2 10 0 0 (fun _ => 0) solidInit st2 h2).1
  rw [hflags 0, hflags 1, hflags 5]
  norm_num [rowCapacity_two, solidInit]
